import Mathlib

/-!
Shallow embedding of the SinricPro client protocol engine
(`src/SinricPro.h`, `src/Capabilities/RangeController.h`).

Machine integers (`unsigned long`, 32 bits on the target) are modelled as
`Nat` with explicit reduction modulo 4294967296 where overflow matters.
External collaborators — ArduinoJson parsing/serialization, the HMAC
routine of `SinricProSignature.h`, the `DeviceId` validity check of
`SinricProId.h`, the transports — are not part of the sources under study;
they are modelled as opaque function parameters bundled in an `Env`
record, so every theorem below holds for all instantiations of those
collaborators.
-/

namespace SinricPro

/-- 2^32, the modulus of `unsigned long` arithmetic on the target. -/
def u32 : Nat := 4294967296

/-- `unsigned long` subtraction `a - b` (wrap-around modulo 2^32). -/
def usub32 (a b : Nat) : Nat := (a % u32 + (u32 - b % u32)) % u32

/-- Transport origin tag of a raw frame (`interface_t` in the source). -/
inductive interface_t where
  | IF_WEBSOCKET
  | IF_UDP
deriving DecidableEq, Repr

/-- A raw frame as held in the queues (`SinricProMessage`): origin tag plus
the serialized text, modelled as a list of characters. -/
structure SinricProMessage where
  interface : interface_t
  message : List Char
deriving DecidableEq, Repr

/-- The fields of a parsed inbound JSON document that the engine reads
(`DynamicJsonDocument` after `deserializeJson`).  A missing numeric field
reads as `0` and a missing string field as `""`, mirroring the `| 0` /
`| ""` defaults applied at each access site in the source.  The numeric
members of `payload.value` are modelled as a string-keyed association
list of integers. -/
structure JsonMsg where
  timestamp : Nat
  payloadCreatedAt : Nat
  payloadType : String
  payloadDeviceId : String
  payloadAction : String
  payloadInstanceId : String
  payloadReplyToken : String
  payloadClientId : String
  hasInstanceId : Bool
  signatureHMAC : String
  payloadValue : List (String × Int)
deriving DecidableEq, Repr

/-- `SinricProClass::extractTimestamp` (SinricPro.h:470-487): prefer the
top-level `timestamp` field; fall back to `payload.createdAt`; a zero value
from either source leaves `baseTimestamp` untouched.  The update stores
`tempTimestamp - millis()/1000` in `unsigned long` arithmetic. -/
def extractTimestamp (message : JsonMsg) (millis base : Nat) : Nat :=
  let tempTimestamp := message.timestamp
  if tempTimestamp ≠ 0 then
    usub32 tempTimestamp (millis / 1000)
  else
    let tempTimestamp := message.payloadCreatedAt
    if tempTimestamp ≠ 0 then
      usub32 tempTimestamp (millis / 1000)
    else
      base

/-- `SinricProClass::getTimestamp` (SinricPro.h:91):
`baseTimestamp + (millis()/1000)` in `unsigned long` arithmetic. -/
def getTimestampPure (baseTimestamp millis : Nat) : Nat :=
  (baseTimestamp + millis / 1000) % u32

/-- The 13-character literal prefix `{"timestamp":` compared by `strncmp`
in `handleReceiveQueue` (SinricPro.h:350); the opening brace is written as
an escape. -/
def timestampPrefix : List Char := "\x7b\"timestamp\":".toList

/-- The signature-bypass gate of `handleReceiveQueue` (SinricPro.h:350):
`strncmp(msg, "{\"timestamp\":", 13) == 0 && strlen(msg) <= 26`. -/
def sigBypass (msg : List Char) : Bool :=
  decide (msg.take 13 = timestampPrefix) && decide (msg.length ≤ 26)

/-- The unsigned control-frame shape exactly as the specification words
it: the literal prefix `{"timestamp":` followed by digits, total length at
most 26 bytes.  Stated from the spec, for comparison with the gate the
code implements. -/
def specUnsignedControlShape (msg : List Char) : Bool :=
  decide (msg.take 13 = timestampPrefix) &&
  !(msg.drop 13).isEmpty &&
  (msg.drop 13).all Char.isDigit &&
  decide (msg.length ≤ 26)

/-- A capability request handed to a device handler (`SinricProRequest`).
The C++ field `instance` is a reserved word in Lean and is therefore named
`instanceName`.  The `response_value` out-parameter is modelled as part of
handler return values instead of a mutable reference. -/
structure SinricProRequest where
  action : String
  instanceName : String
  request_value : List (String × Int)
deriving DecidableEq, Repr

/-- A registry record (`SinricProDeviceInterface*` in `devices`): the
device identifier together with its capability handler
`handleRequest : request → success`. -/
structure Device where
  deviceId : String
  handler : SinricProRequest → Bool

/-- The response document built by `prepareResponse` (SinricPro.h:514-532)
and mutated by the dispatch loop.  `payload.type` is the constant
`"response"`; the `value` object written by device handlers is not
tracked, the claims under study concern `success`, `message` and the
queueing behaviour. -/
structure ResponseDoc where
  action : String
  clientId : String
  createdAt : Nat
  deviceId : String
  instanceId : Option String
  message : String
  replyToken : String
  success : Bool
deriving DecidableEq, Repr

/-- The external collaborators of the engine, modelled as opaque
functions:
* `parse` — ArduinoJson `deserializeJson`;
* `extractPayload`, `calculateSignature` — `SinricProSignature.h`
  (not among the sources under study; the spec describes a deterministic
  keyed MAC over the exact payload substring, so both are kept fully
  abstract);
* `serializeResponse`, `stampAndSign` — serialization of a response
  document resp. the stamp-`createdAt`-then-sign-then-serialize step of
  the send processor;
* `isValidDeviceId` — `DeviceId::isValid` of `SinricProId.h` (fixed-shape
  string check per the spec). -/
structure Env where
  parse : List Char → JsonMsg
  extractPayload : List Char → String
  calculateSignature : String → String → String
  serializeResponse : ResponseDoc → List Char
  stampAndSign : String → List Char → Nat → List Char
  isValidDeviceId : String → Bool

/-- The state of `SinricProClass` that the claims concern: the registry,
the two queues, the clock offset, the enable flag `_begin`, the transport
connectivity (`_websocketListener.isConnected()`), the one-shot response
message slot, the signing key, and the local monotonic clock `millis()`
(driven externally; constant within one poll call in this single-threaded
model). -/
structure EngineState where
  devices : List Device
  receiveQueue : List SinricProMessage
  sendQueue : List SinricProMessage
  baseTimestamp : Nat
  _begin : Bool
  connected : Bool
  responseMessageStr : String
  signingKey : String
  millis : Nat

/-- `getTimestamp` on an engine state. -/
def getTimestamp (st : EngineState) : Nat :=
  getTimestampPure st.baseTimestamp st.millis

/-- The per-frame signature decision of `handleReceiveQueue`
(SinricPro.h:348-357): the bypass gate, or else comparison of the HMAC
recomputed over the extracted payload substring with the frame's
`signature.HMAC` field. -/
def sigMatchOf (env : Env) (signingKey : String) (msg : List Char) : Bool :=
  if sigBypass msg then
    true
  else
    let signatureField := (env.parse msg).signatureHMAC
    let payload := env.extractPayload msg
    let calculatedSignature := env.calculateSignature signingKey payload
    decide (calculatedSignature = signatureField)

/-- `SinricProClass::prepareResponse` (SinricPro.h:514-532): header fields
fixed, echoes `action`/`clientId`/`deviceId`/`replyToken` (and
`instanceId` when present), `message = "OK"`, `success = false`,
`createdAt = 0`. -/
def prepareResponse (requestMessage : JsonMsg) : ResponseDoc :=
  { action := requestMessage.payloadAction
    clientId := requestMessage.payloadClientId
    createdAt := 0
    deviceId := requestMessage.payloadDeviceId
    instanceId := if requestMessage.hasInstanceId then
        some requestMessage.payloadInstanceId
      else
        none
    message := "OK"
    replyToken := requestMessage.payloadReplyToken
    success := false }

/-- The `SinricProRequest` built from an inbound request document in
`handleRequest` (SinricPro.h:307-319). -/
def requestOf (m : JsonMsg) : SinricProRequest :=
  { action := m.payloadAction
    instanceName := m.payloadInstanceId
    request_value := m.payloadValue }

/-- The dispatch loop of `handleRequest` (SinricPro.h:312-331), with the
record index threaded through and the list of indices whose handler was
invoked returned alongside `(success, response, responseMessageStr)`.
The loop guard is `device->getDeviceId() == deviceId && success == false`;
on invocation `payload.success` is overwritten and, on failure, the
one-shot `responseMessageStr` slot (or the generic fallback string) fills
`payload.message`. -/
def requestLoop (deviceId : String) (req : SinricProRequest) :
    List Device → Nat → Bool → ResponseDoc → String →
    Bool × ResponseDoc × String × List Nat
  | [], _, success, resp, rmsg => (success, resp, rmsg, [])
  | device :: rest, i, success, resp, rmsg =>
    if device.deviceId = deviceId ∧ success = false then
      let success2 := device.handler req
      let resp2 :=
        if success2 then
          { resp with success := success2 }
        else if rmsg.length > 0 then
          { resp with success := success2, message := rmsg }
        else
          { resp with success := success2,
                      message := "Device returned an error while processing the request!" }
      let rmsg2 := if success2 then rmsg else if rmsg.length > 0 then "" else rmsg
      let r := requestLoop deviceId req rest (i + 1) success2 resp2 rmsg2
      (r.1, r.2.1, r.2.2.1, i :: r.2.2.2)
    else
      requestLoop deviceId req rest (i + 1) success resp rmsg

/-- The dispatch outcome of `handleRequest` for a parsed request document:
runs the loop over the registry starting from `success = false` on the
response produced by `prepareResponse`. -/
def handleRequestResult (m : JsonMsg) (devices : List Device) (rmsg : String) :
    Bool × ResponseDoc × String × List Nat :=
  requestLoop m.payloadDeviceId (requestOf m) devices 0 false (prepareResponse m) rmsg

/-- `SinricProClass::handleRequest` (SinricPro.h:296-336): dispatch, then
serialize the response and push it onto the send queue tagged with the
origin interface of the request. -/
def handleRequest (env : Env) (requestMessage : JsonMsg) (iface : interface_t)
    (st : EngineState) : EngineState :=
  let r := handleRequestResult requestMessage st.devices st.responseMessageStr
  { st with responseMessageStr := r.2.2.1
            sendQueue := st.sendQueue ++ [⟨iface, env.serializeResponse r.2.1⟩] }

/-- Processing of one popped frame inside `handleReceiveQueue`
(SinricPro.h:342-370): parse, apply the signature gate; on pass, update
`baseTimestamp` via `extractTimestamp` and route by `payload.type`
(`"response"` is diagnostic logging only; `"request"` goes to the
dispatcher); on failure the frame is discarded with no further effect. -/
def processReceivedMessage (env : Env) (st : EngineState)
    (rawMessage : SinricProMessage) : EngineState :=
  let jsonMessage := env.parse rawMessage.message
  let sigMatch := sigMatchOf env st.signingKey rawMessage.message
  if sigMatch then
    let st1 :=
      { st with baseTimestamp := extractTimestamp jsonMessage st.millis st.baseTimestamp }
    if jsonMessage.payloadType = "request" then
      handleRequest env jsonMessage rawMessage.interface st1
    else
      st1
  else
    st

/-- The drain loop of `handleReceiveQueue` (SinricPro.h:338-371): pop the
front frame and process it until the inbound queue is empty. -/
def handleReceiveQueueAux (env : Env) :
    List SinricProMessage → EngineState → EngineState
  | [], st => st
  | rawMessage :: rest, st =>
    handleReceiveQueueAux env rest (processReceivedMessage env st rawMessage)

/-- `SinricProClass::handleReceiveQueue`. -/
def handleReceiveQueue (env : Env) (st : EngineState) : EngineState :=
  handleReceiveQueueAux env st.receiveQueue { st with receiveQueue := [] }

/-- Transport send calls and session-begin calls made by the engine. -/
inductive Action where
  | wsBegin (deviceList : String)
  | wsSend (message : List Char)
  | udpSend (message : List Char)
deriving DecidableEq, Repr

/-- Per-frame body of the send loop (SinricPro.h:380-399): stamp
`createdAt` with the synchronized now, sign, serialize (all bundled in
`Env.stampAndSign`) and route to the transport named by the frame's
origin tag. -/
def sendFrame (env : Env) (signingKey : String) (ts : Nat)
    (rawMessage : SinricProMessage) : Action :=
  match rawMessage.interface with
  | interface_t.IF_WEBSOCKET => Action.wsSend (env.stampAndSign signingKey rawMessage.message ts)
  | interface_t.IF_UDP => Action.udpSend (env.stampAndSign signingKey rawMessage.message ts)

/-- The drain loop of `handleSendQueue` (SinricPro.h:376-402). -/
def handleSendQueueAux (env : Env) (signingKey : String) (ts : Nat) :
    List SinricProMessage → List Action
  | [] => []
  | rawMessage :: rest =>
    sendFrame env signingKey ts rawMessage :: handleSendQueueAux env signingKey ts rest

/-- `SinricProClass::handleSendQueue` (SinricPro.h:373-403): returns
immediately when the transport is not connected or `baseTimestamp` is
zero; otherwise drains the whole outbound queue front-first. -/
def handleSendQueue (env : Env) (st : EngineState) : EngineState × List Action :=
  if st.connected = false then
    (st, [])
  else if st.baseTimestamp = 0 then
    (st, [])
  else
    ({ st with sendQueue := [] },
     handleSendQueueAux env st.signingKey (getTimestamp st) st.sendQueue)

/-- `SinricProClass::sendMessage` (SinricPro.h:490-499): when the
transport is offline the message is dropped (the source logs
"message has been dropped"); otherwise the serialized text is pushed onto
the outbound queue tagged `IF_WEBSOCKET`.  The argument is the serialized
form of the JSON document. -/
def sendMessage (st : EngineState) (messageString : List Char) : EngineState :=
  if st.connected = false then
    st
  else
    { st with sendQueue := st.sendQueue ++ [⟨interface_t.IF_WEBSOCKET, messageString⟩] }

/-- The registry records advertised at connect time: those whose id passes
the validity check (SinricPro.h:408-415). -/
def validDevices (env : Env) (devices : List Device) : List Device :=
  devices.filter fun d => env.isValidDeviceId d.deviceId

/-- `SinricProClass::connect` (SinricPro.h:405-423): with zero valid
device ids, clear `_begin` and make no transport call; otherwise call
`_websocketListener.begin` with the `';'`-joined list of valid ids. -/
def connect (env : Env) (st : EngineState) : EngineState × List Action :=
  let valid := validDevices env st.devices
  if valid.length = 0 then
    ({ st with _begin := false }, [])
  else
    (st, [Action.wsBegin (String.intercalate ";" (valid.map Device.deviceId))])

/-- `SinricProClass::stop` (SinricPro.h:426-430): clear `_begin` and stop
the websocket (modelled by clearing the transport-connected flag).  The
queues are untouched. -/
def stop (st : EngineState) : EngineState :=
  { st with _begin := false, connected := false }

/-- `SinricProClass::handle` (SinricPro.h:249-268): a no-op while `_begin`
is false; otherwise connect when disconnected, then drain the inbound
queue, then the outbound queue.  The transports' own `handle()` polls only
feed the inbound queue and are modelled as frames already present in
`receiveQueue`. -/
def handle (env : Env) (st : EngineState) : EngineState × List Action :=
  if st._begin = false then
    (st, [])
  else
    let ca := if st.connected = false then connect env st else (st, [])
    let st2 := handleReceiveQueue env ca.1
    let sa := handleSendQueue env st2
    (sa.1, ca.2 ++ sa.2)

/-- `n` successive poll calls, accumulating the transport calls made. -/
def handleIter (env : Env) : Nat → EngineState → EngineState × List Action
  | 0, st => (st, [])
  | n + 1, st =>
    let ha := handle env st
    let hr := handleIter env n ha.1
    (hr.1, ha.2 ++ hr.2)

/-- The invocation pattern the dispatch loop implements, stated directly:
visit records in registry order, invoke the handler of every record whose
id matches until one invocation succeeds, then invoke no more. -/
def invokedModel (deviceId : String) (req : SinricProRequest) :
    List Device → Nat → List Nat
  | [], _ => []
  | device :: rest, i =>
    if device.deviceId = deviceId then
      if device.handler req then
        [i]
      else
        i :: invokedModel deviceId req rest (i + 1)
    else
      invokedModel deviceId req rest (i + 1)

/-! ### RangeController (`src/Capabilities/RangeController.h`) -/

/-- The tag of the `GenericRangeValueCallback` union. -/
inductive CallbackType where
  | type_unknown
  | type_int
  | type_float
deriving DecidableEq, Repr

/-- `GenericRangeValueCallback`: a tagged union of an int and a float
callback.  The numeric in/out reference parameter is modelled as `Int`
for both variants — the claims under study depend only on which callback
is invoked, not on the numeric representation.  A callback returns the
success flag together with the value written back through the reference.
The default-constructed union carries `type_unknown` and its function
members are never reachable through a tag test. -/
structure GenericRangeValueCallback where
  type : CallbackType
  cb_int : String → String → Int → Bool × Int
  cb_float : String → String → Int → Bool × Int

/-- The value `std::map::operator[]` default-inserts for a missing key. -/
def defaultGenericCallback : GenericRangeValueCallback :=
  ⟨CallbackType.type_unknown, fun _ _ v => (false, v), fun _ _ v => (false, v)⟩

/-- The callback members of `RangeController` (RangeController.h:120-126).
The two `std::map<String, GenericRangeValueCallback>` members are
modelled as association lists queried with `List.lookup` (`find` /
`operator[]`). -/
structure RangeControllerState where
  setRangeValueCallback : Option (String → Int → Bool × Int)
  genericSetRangeValueCallback : List (String × GenericRangeValueCallback)
  adjustRangeValueCallback : Option (String → Int → Bool × Int)
  genericAdjustRangeValueCallback : List (String × GenericRangeValueCallback)

/-- Which callback a `handleRangeController` run invoked. -/
inductive InvokedCallback where
  | setRangeValue
  | genericSetRangeValue (instanceName : String) (t : CallbackType)
  | genericAdjustRangeValue (instanceName : String) (t : CallbackType)
deriving DecidableEq, Repr

/-- `RangeController::handleRangeController` (RangeController.h:229-294),
returning `(success, response_value writes, callbacks invoked)`.
Faithful quirks kept from the source: the `adjustRangeValue` branch with
an empty instance invokes `setRangeValueCallback` (not
`adjustRangeValueCallback`), and the `adjustRangeValue` branch with a
non-empty instance tests membership in the *set* map
(`genericSetRangeValueCallback.find`) before reading the callback out of
the *adjust* map with `operator[]` (default-inserting when absent). -/
def handleRangeController (st : RangeControllerState) (deviceId : String)
    (request : SinricProRequest) : Bool × List (String × Int) × List InvokedCallback :=
  if request.action = "setRangeValue" then
    if request.instanceName = "" then
      let rangeValue := (request.request_value.lookup "rangeValue").getD 0
      match st.setRangeValueCallback with
      | some cb =>
        let r := cb deviceId rangeValue
        (r.1, [("rangeValue", r.2)], [InvokedCallback.setRangeValue])
      | none => (false, [("rangeValue", rangeValue)], [])
    else
      match st.genericSetRangeValueCallback.lookup request.instanceName with
      | none => (false, [], [])
      | some cb =>
        if cb.type = CallbackType.type_float then
          let value := (request.request_value.lookup "rangeValue").getD 0
          let r := cb.cb_float deviceId request.instanceName value
          (r.1, [("rangeValue", r.2)],
           [InvokedCallback.genericSetRangeValue request.instanceName CallbackType.type_float])
        else if cb.type = CallbackType.type_int then
          let value := (request.request_value.lookup "rangeValue").getD 0
          let r := cb.cb_int deviceId request.instanceName value
          (r.1, [("rangeValue", r.2)],
           [InvokedCallback.genericSetRangeValue request.instanceName CallbackType.type_int])
        else
          (false, [], [])
  else if request.action = "adjustRangeValue" then
    if request.instanceName = "" then
      let rangeValue := (request.request_value.lookup "rangeValueDelta").getD 0
      match st.setRangeValueCallback with
      | some cb =>
        let r := cb deviceId rangeValue
        (r.1, [("rangeValue", r.2)], [InvokedCallback.setRangeValue])
      | none => (false, [("rangeValue", rangeValue)], [])
    else
      if (st.genericSetRangeValueCallback.lookup request.instanceName).isNone then
        (false, [], [])
      else
        let cb := (st.genericAdjustRangeValueCallback.lookup request.instanceName).getD
          defaultGenericCallback
        if cb.type = CallbackType.type_float then
          let value := (request.request_value.lookup "rangeValueDelta").getD 0
          let r := cb.cb_float deviceId request.instanceName value
          (r.1, [("rangeValue", r.2)],
           [InvokedCallback.genericAdjustRangeValue request.instanceName CallbackType.type_float])
        else if cb.type = CallbackType.type_int then
          let value := (request.request_value.lookup "rangeValueDelta").getD 0
          let r := cb.cb_int deviceId request.instanceName value
          (r.1, [("rangeValue", r.2)],
           [InvokedCallback.genericAdjustRangeValue request.instanceName CallbackType.type_int])
        else
          (false, [], [])
  else
    (false, [], [])

/-! ### Concrete instances used by witnesses and counterexamples -/

/-- A concrete collaborator instantiation for witness evaluation. -/
def env0 : Env where
  parse := fun _ => ⟨0, 0, "", "", "", "", "", "", false, "", []⟩
  extractPayload := fun _ => ""
  calculateSignature := fun _ _ => "deadbeef"
  serializeResponse := fun _ => []
  stampAndSign := fun _ msg _ => msg
  isValidDeviceId := fun s => decide (s ≠ "")

/-- A concrete engine state: offline transport, synchronized clock. -/
def stOffline : EngineState where
  devices := []
  receiveQueue := []
  sendQueue := []
  baseTimestamp := 7
  _begin := true
  connected := false
  responseMessageStr := ""
  signingKey := "k"
  millis := 0

/-- A concrete engine state: online transport, synchronized clock. -/
def stOnline : EngineState where
  devices := []
  receiveQueue := []
  sendQueue := []
  baseTimestamp := 7
  _begin := true
  connected := true
  responseMessageStr := ""
  signingKey := "k"
  millis := 0

/-- A concrete engine state: online transport, unsynchronized clock, one
queued outbound frame. -/
def stUnsynced : EngineState where
  devices := []
  receiveQueue := []
  sendQueue := [⟨interface_t.IF_WEBSOCKET, "m".toList⟩]
  baseTimestamp := 0
  _begin := true
  connected := true
  responseMessageStr := ""
  signingKey := "k"
  millis := 0

/-- A registry record whose handler always fails. -/
def dFalse : Device := ⟨"d1", fun _ => false⟩

/-- A registry record (same id) whose handler always succeeds. -/
def dTrue : Device := ⟨"d1", fun _ => true⟩

/-- A concrete inbound request document naming device `d1`. -/
def reqMsg1 : JsonMsg :=
  ⟨0, 0, "request", "d1", "setPowerState", "", "tok1", "c1", false, "", []⟩

/-- A frame sitting in the inbound queue across a stop/connect cycle. -/
def frame9 : SinricProMessage := ⟨interface_t.IF_WEBSOCKET, "f".toList⟩

/-- A running engine with one valid device and one queued inbound frame. -/
def st9 : EngineState where
  devices := [dTrue]
  receiveQueue := [frame9]
  sendQueue := []
  baseTimestamp := 7
  _begin := true
  connected := true
  responseMessageStr := ""
  signingKey := "k"
  millis := 0

/-- A generic int callback that always succeeds. -/
def cbIntTrue : GenericRangeValueCallback :=
  ⟨CallbackType.type_int, fun _ _ v => (true, v), fun _ _ v => (true, v)⟩

/-- RangeController state: an `adjustRangeValue` generic callback is
registered for instance `"Fan"`, but no `setRangeValue` one. -/
def rcState10 : RangeControllerState :=
  ⟨none, [], none, [("Fan", cbIntTrue)]⟩

/-- An `adjustRangeValue` request for instance `"Fan"`. -/
def request10 : SinricProRequest :=
  ⟨"adjustRangeValue", "Fan", [("rangeValueDelta", 3)]⟩

/-! ### Helper lemmas (shared) -/

/-- While `_begin` is false, a poll call changes nothing and makes no
transport call. -/
theorem handle_not_begin (env : Env) (st : EngineState) (h : st._begin = false) :
    handle env st = (st, []) := by
  simp [handle, h]

/-- The send-queue drain emits exactly one send action per queued frame,
in queue order. -/
theorem handleSendQueueAux_eq_map (env : Env) (k : String) (ts : Nat)
    (l : List SinricProMessage) :
    handleSendQueueAux env k ts l = l.map (sendFrame env k ts) := by
  induction l with
  | nil => rfl
  | cons m rest ih => simp [handleSendQueueAux, ih]

/-- When no registry record's id matches, the dispatch loop changes
nothing and invokes nobody. -/
theorem requestLoop_no_match (deviceId : String) (req : SinricProRequest)
    (devices : List Device) (i : Nat) (s : Bool) (resp : ResponseDoc) (rmsg : String)
    (h : ∀ d ∈ devices, d.deviceId ≠ deviceId) :
    requestLoop deviceId req devices i s resp rmsg = (s, resp, rmsg, []) := by
  induction devices generalizing i with
  | nil => rfl
  | cons d rest ih =>
    have hd : d.deviceId ≠ deviceId := h d (List.mem_cons_self _ _)
    have hr : ∀ x ∈ rest, x.deviceId ≠ deviceId := fun x hx => h x (List.mem_cons_of_mem _ hx)
    simp [requestLoop, hd, ih _ hr]

/-- Once an invocation has succeeded, the rest of the loop invokes no
further handler. -/
theorem requestLoop_after_success (deviceId : String) (req : SinricProRequest)
    (devices : List Device) (i : Nat) (resp : ResponseDoc) (rmsg : String) :
    (requestLoop deviceId req devices i true resp rmsg).2.2.2 = [] := by
  induction devices generalizing i resp rmsg with
  | nil => rfl
  | cons d rest ih => simp [requestLoop, ih]

/-- The indices invoked by the dispatch loop started with `success =
false` are exactly `invokedModel`: matching records in order, stopping
after the first success. -/
theorem requestLoop_invoked_eq (deviceId : String) (req : SinricProRequest)
    (devices : List Device) (i : Nat) (resp : ResponseDoc) (rmsg : String) :
    (requestLoop deviceId req devices i false resp rmsg).2.2.2
      = invokedModel deviceId req devices i := by
  induction devices generalizing i resp rmsg with
  | nil => rfl
  | cons d rest ih =>
    by_cases hd : d.deviceId = deviceId
    · by_cases hh : d.handler req = true
      · simp [requestLoop, invokedModel, hd, hh, requestLoop_after_success]
      · have hh2 : d.handler req = false := by simpa using hh
        simp [requestLoop, invokedModel, hd, hh2, ih]
    · simp [requestLoop, invokedModel, hd, ih]

/-- Every index produced by `invokedModel` is at least the start index. -/
theorem invokedModel_ge (deviceId : String) (req : SinricProRequest) :
    ∀ (devices : List Device) (i : Nat), ∀ j ∈ invokedModel deviceId req devices i, i ≤ j := by
  intro devices
  induction devices with
  | nil => intro i j hj; simp [invokedModel] at hj
  | cons d rest ih =>
    intro i j hj
    by_cases hd : d.deviceId = deviceId
    · by_cases hh : d.handler req = true
      · simp [invokedModel, hd, hh] at hj
        omega
      · have hh2 : d.handler req = false := by simpa using hh
        simp [invokedModel, hd, hh2] at hj
        rcases hj with rfl | hj
        · exact le_refl _
        · have := ih (i + 1) j hj
          omega
    · have := ih (i + 1) j (by simpa [invokedModel, hd] using hj)
      omega

/-- The invoked indices are strictly increasing: no record is invoked
twice. -/
theorem invokedModel_chain (deviceId : String) (req : SinricProRequest) :
    ∀ (devices : List Device) (i : Nat),
      List.Chain' (· < ·) (invokedModel deviceId req devices i) := by
  intro devices
  induction devices with
  | nil => intro i; simp [invokedModel]
  | cons d rest ih =>
    intro i
    by_cases hd : d.deviceId = deviceId
    · by_cases hh : d.handler req = true
      · simp [invokedModel, hd, hh]
      · have hh2 : d.handler req = false := by simpa using hh
        simp only [invokedModel, hd, hh2, if_true, if_false, Bool.false_eq_true]
        refine List.chain'_cons'.mpr ⟨?_, ih (i + 1)⟩
        intro y hy
        have hy2 : y ∈ invokedModel deviceId req rest (i + 1) :=
          List.mem_of_mem_head? hy
        have := invokedModel_ge deviceId req rest (i + 1) y hy2
        omega
    · simp only [invokedModel, hd, if_false]
      exact ih (i + 1)

/-- The projections of `connect`'s resulting state: the queues are
untouched and `_begin` is cleared or kept. -/
theorem connect_fst_fields (env : Env) (st : EngineState) :
    (connect env st).1._begin
        = (if (validDevices env st.devices).length = 0 then false else st._begin) ∧
    (connect env st).1.receiveQueue = st.receiveQueue ∧
    (connect env st).1.sendQueue = st.sendQueue := by
  unfold connect
  split <;> simp_all

/-! ### C1 — the signature-bypass gate -/

/-- C1 counterexample: the frame `{"timestamp":abc` has the literal
13-byte prefix and length 16 ≤ 26, so the code's gate lets it bypass
signature verification, although it is not of the spec's exact shape
(`abc` is not a digit string).  The claimed if-and-only-if is false. -/
theorem sigBypass_accepts_nondigits :
    sigBypass ("\x7b\"timestamp\":abc".toList) = true ∧
    specUnsignedControlShape ("\x7b\"timestamp\":abc".toList) = false := by
  constructor <;> decide

/-- C1 (amended): a frame bypasses signature verification if and only if
its first 13 bytes are the literal prefix `{"timestamp":` and its total
length is at most 26 bytes — the bytes after the prefix are not
constrained to be digits; every other frame passes exactly when the HMAC
recomputed over its payload substring equals the frame's signature field,
and a frame failing that is discarded with no state change. -/
theorem signature_gate_exact (env : Env) (key : String) (st : EngineState)
    (raw : SinricProMessage) :
    (sigBypass raw.message = true ↔
      raw.message.take 13 = timestampPrefix ∧ raw.message.length ≤ 26) ∧
    (sigBypass raw.message = false →
      (sigMatchOf env key raw.message = true ↔
        env.calculateSignature key (env.extractPayload raw.message)
          = (env.parse raw.message).signatureHMAC)) ∧
    (sigMatchOf env st.signingKey raw.message = false →
      processReceivedMessage env st raw = st) := by
  refine ⟨by simp [sigBypass], fun h => by simp [sigMatchOf, h],
    fun h => by simp [processReceivedMessage, h]⟩

/-- Witness for C1 (amended) at the concrete frame `abc`: not of bypass
shape, mismatched HMAC, hence discarded. -/
theorem signature_gate_exact_witness :
    (sigMatchOf env0 "k" ("abc".toList) = true ↔
      env0.calculateSignature "k" (env0.extractPayload ("abc".toList))
        = (env0.parse ("abc".toList)).signatureHMAC) ∧
    processReceivedMessage env0 stOnline ⟨interface_t.IF_WEBSOCKET, "abc".toList⟩ = stOnline :=
  ⟨(signature_gate_exact env0 "k" stOnline ⟨interface_t.IF_WEBSOCKET, "abc".toList⟩).2.1
      (by decide),
   (signature_gate_exact env0 "k" stOnline ⟨interface_t.IF_WEBSOCKET, "abc".toList⟩).2.2
      (by decide)⟩

/-! ### C2 — the send processor gate and FIFO flush -/

/-- C2: while the transport is disconnected or `baseTimestamp` is zero,
the send processor makes no transport call and removes no frame; once
connected and synchronized, it empties the queue and emits one send
action per previously queued frame in original FIFO order. -/
theorem handleSendQueue_gate_and_fifo (env : Env) (st : EngineState) :
    ((st.connected = false ∨ st.baseTimestamp = 0) → handleSendQueue env st = (st, [])) ∧
    (st.connected = true → st.baseTimestamp ≠ 0 →
      handleSendQueue env st
        = ({ st with sendQueue := [] },
           st.sendQueue.map (sendFrame env st.signingKey (getTimestamp st)))) := by
  constructor
  · rintro (h | h)
    · simp [handleSendQueue, h]
    · by_cases hc : st.connected = false <;> simp [handleSendQueue, hc, h]
  · intro hc hb
    simp [handleSendQueue, hc, hb, handleSendQueueAux_eq_map]

/-- Witness for C2: the unsynchronized state keeps its queued frame and
sends nothing; the synchronized online state flushes in order. -/
theorem handleSendQueue_gate_and_fifo_witness :
    handleSendQueue env0 stUnsynced = (stUnsynced, []) ∧
    handleSendQueue env0 stOnline
      = ({ stOnline with sendQueue := [] },
         stOnline.sendQueue.map (sendFrame env0 stOnline.signingKey (getTimestamp stOnline))) :=
  ⟨(handleSendQueue_gate_and_fifo env0 stUnsynced).1 (Or.inr rfl),
   (handleSendQueue_gate_and_fifo env0 stOnline).2 rfl (by decide)⟩

/-! ### C3 — sendMessage while unsendable -/

/-- C3 counterexample: with the transport offline (one of the claim's
premises), `sendMessage` returns the state unchanged — the envelope is
dropped, not placed in the outbound queue (which stays empty). -/
theorem sendMessage_offline_drops :
    stOffline.connected = false ∧
    sendMessage stOffline ("m".toList) = stOffline ∧
    (sendMessage stOffline ("m".toList)).sendQueue = [] :=
  ⟨rfl, rfl, rfl⟩

/-- C3 (amended): an envelope submitted while the transport is connected
is appended to the outbound queue even when `baseTimestamp` is
unsynchronized, and the send processor removes nothing while
`baseTimestamp` is zero — so such envelopes are held; but an envelope
submitted while the transport is not connected is dropped by
`sendMessage`, not queued. -/
theorem sendMessage_enqueue_or_drop (env : Env) (st : EngineState)
    (messageString : List Char) :
    (st.connected = true →
      (sendMessage st messageString).sendQueue
        = st.sendQueue ++ [⟨interface_t.IF_WEBSOCKET, messageString⟩]) ∧
    (st.connected = false → sendMessage st messageString = st) ∧
    (st.baseTimestamp = 0 → (handleSendQueue env st).1.sendQueue = st.sendQueue) := by
  refine ⟨fun h => by simp [sendMessage, h], fun h => by simp [sendMessage, h], fun h => ?_⟩
  by_cases hc : st.connected = false <;> simp [handleSendQueue, hc, h]

/-- Witness for C3 (amended): enqueue while connected-but-unsynchronized,
drop while offline, hold across a send-processor run. -/
theorem sendMessage_enqueue_or_drop_witness :
    (sendMessage stUnsynced ("m".toList)).sendQueue
        = stUnsynced.sendQueue ++ [⟨interface_t.IF_WEBSOCKET, "m".toList⟩] ∧
    sendMessage stOffline ("m".toList) = stOffline ∧
    (handleSendQueue env0 stUnsynced).1.sendQueue = stUnsynced.sendQueue :=
  ⟨(sendMessage_enqueue_or_drop env0 stUnsynced ("m".toList)).1 rfl,
   (sendMessage_enqueue_or_drop env0 stOffline ("m".toList)).2.1 rfl,
   (sendMessage_enqueue_or_drop env0 stUnsynced ("m".toList)).2.2 rfl⟩

/-! ### C4 — which handlers the dispatcher invokes -/

/-- C4 counterexample: two registry records carry the same id `d1`; the
first one's handler fails, and the dispatcher then also invokes the
second record's handler (invoked indices `[0, 1]`), contradicting
"invokes no other record's handler for that frame". -/
theorem dispatch_invokes_second_match :
    (handleRequestResult reqMsg1 [dFalse, dTrue] "").2.2.2 = [0, 1] ∧
    dFalse.deviceId = reqMsg1.payloadDeviceId ∧
    dTrue.deviceId = reqMsg1.payloadDeviceId :=
  ⟨rfl, rfl, rfl⟩

/-- C4 (amended): the dispatcher invokes the handlers of the matching
registry records in registry order, stopping after the first invocation
that succeeds (so the first matching record's handler is always the first
invoked, and later matching records run only while every earlier matching
handler returned false); the invoked indices are strictly increasing, so
each registered handler runs at most once per inbound request frame. -/
theorem handleRequest_invocation_policy (m : JsonMsg) (devices : List Device)
    (rmsg : String) :
    (handleRequestResult m devices rmsg).2.2.2
      = invokedModel m.payloadDeviceId (requestOf m) devices 0 ∧
    List.Chain' (· < ·) (handleRequestResult m devices rmsg).2.2.2 := by
  have h := requestLoop_invoked_eq m.payloadDeviceId (requestOf m) devices 0
    (prepareResponse m) rmsg
  exact ⟨h, h ▸ invokedModel_chain _ _ devices 0⟩

/-! ### C5 — exactly one response, success=false on no match -/

/-- C5: for every verified request frame, exactly one response envelope
is serialized and appended to the outbound queue; when no registered
device id matches the request's deviceId, that response carries
`success = false` (the untouched `prepareResponse` default). -/
theorem handleRequest_exactly_one_response (env : Env) (m : JsonMsg)
    (iface : interface_t) (st : EngineState) :
    (handleRequest env m iface st).sendQueue
      = st.sendQueue ++
        [⟨iface, env.serializeResponse
            (handleRequestResult m st.devices st.responseMessageStr).2.1⟩] ∧
    ((∀ d ∈ st.devices, d.deviceId ≠ m.payloadDeviceId) →
      (handleRequestResult m st.devices st.responseMessageStr).2.1.success = false) := by
  constructor
  · rfl
  · intro h
    unfold handleRequestResult
    rw [requestLoop_no_match _ _ _ _ _ _ _ h]
    rfl

/-- Witness for C5: a request naming a deviceId with no registered device
yields exactly one enqueued response with `success = false`. -/
theorem handleRequest_exactly_one_response_witness :
    (handleRequest env0 reqMsg1 interface_t.IF_WEBSOCKET stOnline).sendQueue
      = stOnline.sendQueue ++
        [⟨interface_t.IF_WEBSOCKET, env0.serializeResponse
            (handleRequestResult reqMsg1 stOnline.devices stOnline.responseMessageStr).2.1⟩] ∧
    (handleRequestResult reqMsg1 stOnline.devices stOnline.responseMessageStr).2.1.success
      = false :=
  ⟨(handleRequest_exactly_one_response env0 reqMsg1 interface_t.IF_WEBSOCKET stOnline).1,
   (handleRequest_exactly_one_response env0 reqMsg1 interface_t.IF_WEBSOCKET stOnline).2
     (by intro d hd; simp [stOnline] at hd)⟩

/-! ### C6 — connect with zero valid devices disables the engine -/

/-- C6: when no registered device has a valid id, `connect` makes no
transport call and clears `_begin`; from the resulting disabled state,
any number of later poll calls changes nothing and makes no transport
call. -/
theorem connect_without_valid_devices (env : Env) (st : EngineState)
    (h : ∀ d ∈ st.devices, env.isValidDeviceId d.deviceId = false) :
    connect env st = ({ st with _begin := false }, []) ∧
    ∀ n, handleIter env n { st with _begin := false }
        = ({ st with _begin := false }, []) := by
  have hfil : validDevices env st.devices = [] := by
    simp only [validDevices, List.filter_eq_nil_iff]
    intro d hd
    simp [h d hd]
  constructor
  · simp [connect, hfil]
  · intro n
    induction n with
    | zero => rfl
    | succ k ih =>
      have hb : ({ st with _begin := false } : EngineState)._begin = false := rfl
      simp [handleIter, handle_not_begin env _ hb, ih]

/-- Witness for C6 at a state with an empty registry: `connect` disables
the engine and two later polls are no-ops. -/
theorem connect_without_valid_devices_witness :
    connect env0 stOnline = ({ stOnline with _begin := false }, []) ∧
    handleIter env0 2 { stOnline with _begin := false }
      = ({ stOnline with _begin := false }, []) :=
  ⟨(connect_without_valid_devices env0 stOnline (by intro d hd; simp [stOnline] at hd)).1,
   (connect_without_valid_devices env0 stOnline (by intro d hd; simp [stOnline] at hd)).2 2⟩

/-! ### C7 — timestamp source priority and zero handling -/

/-- C7: when a verified frame carries a non-zero top-level `timestamp`,
`baseTimestamp` is recomputed from it regardless of `payload.createdAt`
(the top-level field takes priority); when the top-level `timestamp` is
zero and `payload.createdAt` is non-zero, the fallback is used; a zero
value from either source never changes `baseTimestamp` (both zero leaves
it untouched). -/
theorem extractTimestamp_priority_and_zero (m : JsonMsg) (millis base : Nat) :
    (m.timestamp ≠ 0 →
      extractTimestamp m millis base = usub32 m.timestamp (millis / 1000)) ∧
    (m.timestamp = 0 → m.payloadCreatedAt ≠ 0 →
      extractTimestamp m millis base = usub32 m.payloadCreatedAt (millis / 1000)) ∧
    (m.timestamp = 0 → m.payloadCreatedAt = 0 →
      extractTimestamp m millis base = base) := by
  refine ⟨fun h => by simp [extractTimestamp, h],
          fun h h2 => by simp [extractTimestamp, h, h2],
          fun h h2 => by simp [extractTimestamp, h, h2]⟩

/-- Witness for C7 at concrete messages carrying both, one, or neither
timestamp source. -/
theorem extractTimestamp_priority_and_zero_witness :
    extractTimestamp ⟨1690000000, 77, "", "", "", "", "", "", false, "", []⟩ 2000 5
        = usub32 1690000000 2 ∧
    extractTimestamp ⟨0, 77, "", "", "", "", "", "", false, "", []⟩ 2000 5
        = usub32 77 2 ∧
    extractTimestamp ⟨0, 0, "", "", "", "", "", "", false, "", []⟩ 2000 5 = 5 := by
  refine ⟨?_, ?_, ?_⟩
  · exact (extractTimestamp_priority_and_zero _ 2000 5).1 (by decide)
  · exact (extractTimestamp_priority_and_zero _ 2000 5).2.1 (by decide) (by decide)
  · exact (extractTimestamp_priority_and_zero _ 2000 5).2.2 (by decide) (by decide)

/-! ### C8 — getTimestamp after synchronization -/

/-- C8: after a control frame carrying non-zero server epoch `T` is
processed at local clock `m0` (milliseconds), a later `getTimestamp` at
local clock `m` returns `T` plus the elapsed whole seconds of the local
monotonic clock, `m/1000 - m0/1000` — provided no 32-bit wrap occurs. -/
theorem getTimestamp_after_sync (T m0 m base : Nat)
    (hT : T ≠ 0)
    (hm0 : m0 / 1000 ≤ T)
    (hmono : m0 / 1000 ≤ m / 1000)
    (hnw : T + (m / 1000 - m0 / 1000) < u32) :
    getTimestampPure
        (extractTimestamp ⟨T, 0, "", "", "", "", "", "", false, "", []⟩ m0 base) m
      = T + (m / 1000 - m0 / 1000) := by
  have h1 : extractTimestamp ⟨T, 0, "", "", "", "", "", "", false, "", []⟩ m0 base
      = usub32 T (m0 / 1000) :=
    (extractTimestamp_priority_and_zero _ m0 base).1 hT
  rw [h1]
  unfold usub32 getTimestampPure u32 at *
  omega

/-- Witness for C8: `T = 1690000000`, frame processed at 1500 ms, queried
at 3700 ms — the result is `1690000000 + 2`. -/
theorem getTimestamp_after_sync_witness :
    getTimestampPure
        (extractTimestamp ⟨1690000000, 0, "", "", "", "", "", "", false, "", []⟩ 1500 0) 3700
      = 1690000002 :=
  getTimestamp_after_sync 1690000000 1500 3700 0 (by decide) (by decide)
    (by decide) (by decide)

/-! ### C9 — stop, connect and the queued frames -/

/-- C9 counterexample: a frame queued inbound before `stop()` is still in
the queue after `stop()`, then `connect()`, then a poll call — the poll
drains nothing and makes no transport call, because `connect()` leaves
`_begin` false. -/
theorem stop_connect_poll_does_not_drain :
    st9.receiveQueue = [frame9] ∧
    (handle env0 (connect env0 (stop st9)).1).1.receiveQueue = [frame9] ∧
    (handle env0 (connect env0 (stop st9)).1).2 = [] :=
  ⟨rfl, rfl, rfl⟩

/-- C9 (amended): `stop()` leaves the contents of both queues unchanged,
and a later `connect()` also preserves them; but `connect()` never
re-sets `_begin`, so the engine stays disabled and the next poll call is
a no-op — the queued frames are not drained until the engine is
re-enabled by other means (a later `begin()` or adding a valid device
with valid credentials). -/
theorem stop_keeps_queues_connect_no_resume (env : Env) (st : EngineState) :
    (stop st).receiveQueue = st.receiveQueue ∧
    (stop st).sendQueue = st.sendQueue ∧
    (connect env (stop st)).1.receiveQueue = st.receiveQueue ∧
    (connect env (stop st)).1.sendQueue = st.sendQueue ∧
    (connect env (stop st)).1._begin = false ∧
    handle env (connect env (stop st)).1 = ((connect env (stop st)).1, []) := by
  obtain ⟨h1, h2, h3⟩ := connect_fst_fields env (stop st)
  have hb : (connect env (stop st)).1._begin = false := by
    rw [h1]
    simp [stop]
  exact ⟨rfl, rfl, h2, h3, hb, handle_not_begin env _ hb⟩

/-! ### C10 — adjustRangeValue consults the set-callback map -/

/-- C10: for an `adjustRangeValue` request with a non-empty instance,
`handleRangeController` tests membership in the `setRangeValue` instance
map; when no generic `setRangeValue` callback is registered for that
instance it returns `false` and invokes no callback at all — regardless
of what the `adjustRangeValue` map contains for that instance. -/
theorem handleRangeController_adjust_needs_set_entry
    (st : RangeControllerState) (deviceId : String) (request : SinricProRequest)
    (ha : request.action = "adjustRangeValue")
    (hi : request.instanceName ≠ "")
    (hs : st.genericSetRangeValueCallback.lookup request.instanceName = none) :
    handleRangeController st deviceId request = (false, [], []) := by
  simp [handleRangeController, ha, hi, hs]

/-- Witness for C10: a generic `adjustRangeValue` callback IS registered
for instance `"Fan"`, no `setRangeValue` one is; the handler returns
`false` and invokes nothing. -/
theorem handleRangeController_adjust_needs_set_entry_witness :
    handleRangeController rcState10 "d1" request10 = (false, [], []) ∧
    (rcState10.genericAdjustRangeValueCallback.lookup "Fan").isSome = true :=
  ⟨handleRangeController_adjust_needs_set_entry rcState10 "d1" request10 rfl
      (by decide) rfl,
   by decide⟩

end SinricPro
